import Mathlib

/-!
# Verification of the RajMusic stream-resolution and playback subsystem

Shallow embedding of the music-streaming client's core logic:

* `src/services/musicService.ts` — the Piped-pool resolver (`getStreamUrl`),
  the iTunes search (`searchSongs` / `getFeaturedSongs`);
* the Audius service appended to `src/components/SongList.tsx`
  (`audiusSearch` / `audiusFeatured`);
* the two `App` variants in `src/unnamed/part_000`:
  the Capacitor variant (called V1 below, lines 1–690 of the file) and the
  older variant (called V2 below, lines 692–1373), each with its own
  `handlePlaySong`, `handleNext`/`handlePrev`, audio `onError` handler and
  `handleAIGenerate`.

JS conventions are embedded explicitly: optional string fields become
`Option String`, truthiness of a string is "non-empty", `findIndex`'s `-1`
is an explicit `none`/`Int`, and asynchronous `await` points are split into
a "start" function and a "complete" function so interleavings can be stated.
-/

/-- The `Song` record of `src/types.ts` (union of the fields the two
variants use).  `previewUrl` and `lyrics` are optional in TS, hence
`Option`; `isLocal` is an optional boolean whose `undefined` is falsy,
hence plain `Bool`; `duration` is advisory and not used by any claim, kept
as a natural. -/
structure Song where
  id : String
  title : String
  artist : String
  album : String
  coverUrl : String
  audioUrl : String
  previewUrl : Option String
  duration : Nat
  isLocal : Bool
  lyrics : Option String
deriving Repr, DecidableEq

/-- JS truthiness of an optional string field: present and non-empty. -/
def optTruthy : Option String → Bool
  | none => false
  | some s => s != ""

/-- JS `currentSong?.id === song.id`: `false` when there is no current song. -/
def sameId (cur : Option Song) (song : Song) : Bool :=
  match cur with
  | some c => c.id == song.id
  | none => false

/-- JS `Array.prototype.findIndex` as an option (`none` standing for `-1`),
with the predicate applied front to back. -/
def findIdxO (p : Song → Bool) : List Song → Option Nat
  | [] => none
  | x :: xs => if p x then some 0 else (findIdxO p xs).map (· + 1)

/-! ## V2 playback controller state (`src/unnamed/part_000`, lines 742–980)

The state components touched by `handlePlaySong` and the audio `error`
handler.  `alerts` collects the user-facing `alert(...)` notices in order. -/

structure V2State where
  songs : List Song
  currentSong : Option Song
  isPlaying : Bool
  isResolvingAudio : Bool
  usingPreview : Bool
  showLyrics : Bool
  alerts : List String
deriving Repr, DecidableEq

/-- Outcome of the awaited `getStreamUrl(song.title, song.artist)` promise:
fulfilled with a string, fulfilled with `null`, or rejected. -/
inductive ResolveOutcome where
  | resolved (url : String)
  | nullResult
  | failed
deriving Repr, DecidableEq

/-- `handlePlaySong` (V2, lines 846–869) up to the first `await`:
optimistic queue replacement, same-track toggle, local/already-resolved
skip, else mark resolution in flight.  The returned boolean is `true`
exactly when the handler goes on to invoke the Resolver (`getStreamUrl`).
JS compares `contextSongs !== songs` by reference; the embedding compares
by value, which only errs toward replacing the queue with an equal one —
every theorem below holds on both sides of that test. -/
def playSongStartV2 (st : V2State) (song : Song) (ctx : Option (List Song)) :
    V2State × Bool :=
  let st := match ctx with
    | some cs => if cs ≠ st.songs then { st with songs := cs } else st
    | none => st
  if sameId st.currentSong song then
    ({ st with isPlaying := !st.isPlaying }, false)
  else
    let st := { st with currentSong := some song, isPlaying := true,
                        showLyrics := false, usingPreview := false }
    if song.isLocal ∨ song.audioUrl.length > 5 then
      ({ st with isResolvingAudio := false }, false)
    else
      ({ st with isResolvingAudio := true }, true)

/-- `handlePlaySong` (V2, lines 871–896) after the `await`, applied to the
state current at completion time.  `song` is the closure's captured track.
Note the success path sets `currentSong` to the resolved track
unconditionally — there is no check that `song` is still current. -/
def playSongCompleteV2 (st : V2State) (song : Song) (outcome : ResolveOutcome) :
    V2State :=
  let st :=
    match outcome with
    | .resolved u =>
      if u ≠ "" then
        let updated := { song with audioUrl := u }
        { st with currentSong := some updated,
                  songs := st.songs.map (fun (s : Song) => if s.id = song.id then updated else s) }
      else
        -- a falsy (empty) resolved string takes the `else` branch of `if (streamUrl)`
        if optTruthy song.previewUrl then { st with usingPreview := true }
        else { st with alerts := st.alerts ++ ["Song unavailable."], isPlaying := false }
    | .nullResult =>
        if optTruthy song.previewUrl then { st with usingPreview := true }
        else { st with alerts := st.alerts ++ ["Song unavailable."], isPlaying := false }
    | .failed =>
        if optTruthy song.previewUrl then { st with usingPreview := true }
        else { st with isPlaying := false }
  { st with isResolvingAudio := false }

/-- The whole V2 `handlePlaySong` call when no other handler interleaves
between the `await` and its completion.  Second component: whether the
Resolver was invoked. -/
def handlePlaySongV2 (st : V2State) (song : Song) (ctx : Option (List Song))
    (outcome : ResolveOutcome) : V2State × Bool :=
  let r := playSongStartV2 st song ctx
  if r.2 then (playSongCompleteV2 r.1 song outcome, true) else (r.1, false)

/-- The V2 audio element's `src` binding (line 1134):
`usingPreview && currentSong?.previewUrl ? currentSong.previewUrl :
currentSong?.audioUrl`; `none` is JS `undefined`. -/
def derivedSrcV2 (st : V2State) : Option String :=
  match st.currentSong with
  | none => none
  | some c =>
    if st.usingPreview && optTruthy c.previewUrl then c.previewUrl
    else some c.audioUrl

/-! ## Media sink and the V2 mid-stream `error` handler (lines 785–798) -/

/-- The audio element as seen by the controller: its source and playback
position.  Assigning `src` loads a new media resource, which per the HTML
media-element semantics resets the position to 0; the embedding performs
that reset explicitly where the code assigns `audioRef.current.src`. -/
structure Sink where
  src : Option String
  time : Nat
deriving Repr, DecidableEq

/-- What the V2 `onError` listener decides to do. -/
inductive ErrorStep where
  /-- one-time downgrade: switch the sink to the preview URL and keep playing -/
  | fallbackPreview
  /-- `handleNext()` is invoked: advance to the next track -/
  | skipNext
  /-- nothing happens (not playing) -/
  | ignore
deriving Repr, DecidableEq

/-- The V2 audio `error` listener:
`if (isPlaying && !usingPreview && currentSong?.previewUrl) { setUsingPreview(true);
audioRef.current.src = currentSong.previewUrl; audioRef.current.play(); }
else if (isPlaying) { handleNext(); }`. -/
def onErrorV2 (st : V2State) (sink : Sink) : V2State × Sink × ErrorStep :=
  match st.currentSong with
  | some c =>
    if st.isPlaying && !st.usingPreview && optTruthy c.previewUrl then
      ({ st with usingPreview := true },
       { sink with src := c.previewUrl, time := 0 },
       .fallbackPreview)
    else if st.isPlaying then (st, sink, .skipNext)
    else (st, sink, .ignore)
  | none =>
    if st.isPlaying then (st, sink, .skipNext) else (st, sink, .ignore)

/-! ## V1 handlers (`src/unnamed/part_000`, lines 70–406) -/

/-- The V1 full-player display mode. -/
inductive PlayerViewMode where
  | art | lyricsMode | eq
deriving Repr, DecidableEq

/-- The V1 state components touched by `handlePlaySong`. -/
structure V1State where
  songs : List Song
  currentSong : Option Song
  isPlaying : Bool
  playerMode : PlayerViewMode
deriving Repr, DecidableEq

/-- `handlePlaySong` (V1, lines 300–314): guard against a missing/falsy id,
optimistic queue replacement, same-track toggle, else set the track as
current with playing intent.  V1 performs no resolution here — that is the
auto-resolve effect's job. -/
def handlePlaySongV1 (st : V1State) (song : Option Song) (ctx : Option (List Song)) :
    V1State :=
  match song with
  | none => st
  | some sg =>
    if sg.id = "" then st
    else
      let st := match ctx with
        | some cs => if cs ≠ st.songs then { st with songs := cs } else st
        | none => st
      if sameId st.currentSong sg then { st with isPlaying := !st.isPlaying }
      else { st with currentSong := some sg, isPlaying := true, playerMode := .art }

/-- The V1 auto-resolve effect's trigger condition (lines 171–180):
resolution starts iff the current song is neither local nor already
carrying an audio URL (`!currentSong.isLocal && !currentSong.audioUrl`). -/
def autoResolveTriggersV1 (c : Song) : Bool :=
  !c.isLocal && c.audioUrl == ""

/-- The V1 auto-resolve completion (lines 174–177): the functional update
`prev && prev.id === currentSong.id ? { ...prev, audioUrl: url } : prev` —
the stale-response guard.  `target` is the song the resolution was started
for; `prev` is whatever is current when the promise settles. -/
def autoResolveCompleteV1 (prev : Option Song) (target : Song) (url : String) :
    Option Song :=
  match prev with
  | some p => if p.id == target.id then some { p with audioUrl := url } else some p
  | none => none

/-- `handleNext` (V1, lines 346–358), the pure navigation part: `null`
current or empty queue are no-ops; a current id missing from the queue is
treated as index 0; otherwise step to `(index + 1) % length`. -/
def handleNextV1 (songs : List Song) (cur : Option Song) : Option Song :=
  match cur with
  | none => none
  | some c =>
    if songs.length = 0 then some c
    else
      let safeIndex := (findIdxO (fun s => s.id == c.id) songs).getD 0
      let nextIndex := (safeIndex + 1) % songs.length
      some ((songs.get? nextIndex).getD c)

/-- `handlePrev` (V1, lines 360–372): step to `(index - 1 + length) % length`
(written on naturals as `index + length - 1`, equal for `length ≥ 1`). -/
def handlePrevV1 (songs : List Song) (cur : Option Song) : Option Song :=
  match cur with
  | none => none
  | some c =>
    if songs.length = 0 then some c
    else
      let safeIndex := (findIdxO (fun s => s.id == c.id) songs).getD 0
      let prevIndex := (safeIndex + songs.length - 1) % songs.length
      some ((songs.get? prevIndex).getD c)

/-! ## V2 queue navigation (lines 931–943)

V2's `handleNext`/`handlePrev` keep JS `findIndex`'s `-1` and do not guard
the empty queue: `songs[(currentIndex + 1) % songs.length]` is
`songs[NaN] = undefined` for an empty queue, and `handlePlaySong(undefined)`
then throws reading `song.id`.  The embedding makes the JS `Int` index and
the out-of-domain lookup explicit. -/

/-- Result of a V2 navigation call: no-op (no current song), the track
handed to `handlePlaySong`, or a thrown `TypeError`. -/
inductive NavResult where
  | noop
  | advanceTo (s : Song)
  | crash
deriving Repr, DecidableEq

/-- JS `findIndex` as an integer (`-1` when absent). -/
def jsFindIndex (songs : List Song) (id : String) : Int :=
  match findIdxO (fun s => s.id == id) songs with
  | some i => Int.ofNat i
  | none => -1

/-- JS array read at a (possibly negative) integer index; out-of-range is
`undefined`. -/
def jsIndex (l : List Song) (i : Int) : Option Song :=
  if i < 0 then none else l.get? i.toNat

/-- `handleNext` (V2, lines 931–936).  JS `%` is truncated remainder
(`Int.tmod`). -/
def handleNextV2 (songs : List Song) (cur : Option Song) : NavResult :=
  match cur with
  | none => .noop
  | some c =>
    if songs.length = 0 then .crash
    else
      let nextIndex := (jsFindIndex songs c.id + 1).tmod songs.length
      match jsIndex songs nextIndex with
      | some s => .advanceTo s
      | none => .crash

/-- `handlePrev` (V2, lines 938–943). -/
def handlePrevV2 (songs : List Song) (cur : Option Song) : NavResult :=
  match cur with
  | none => .noop
  | some c =>
    if songs.length = 0 then .crash
    else
      let prevIndex := (jsFindIndex songs c.id - 1 + songs.length).tmod songs.length
      match jsIndex songs prevIndex with
      | some s => .advanceTo s
      | none => .crash

/-! ## String helpers used by the services

Character-list implementations of the JS string operations the services
use (`includes`, `split(sep)[1]`, first-occurrence `replace`), written
structurally so they evaluate under `decide`/`rfl`. -/

/-- Does `p` occur at the head of `l`? -/
def leadsWith : List Char → List Char → Bool
  | [], _ => true
  | _ :: _, [] => false
  | p :: ps, c :: cs => p == c && leadsWith ps cs

/-- Does `pat` occur anywhere in `l`? -/
def containsSeq (pat : List Char) : List Char → Bool
  | [] => leadsWith pat []
  | c :: cs => leadsWith pat (c :: cs) || containsSeq pat cs

/-- JS `s.includes(pat)`. -/
def includesStr (s pat : String) : Bool :=
  containsSeq pat.data s.data

/-- Everything after the first occurrence of `pat`; `none` if `pat` does
not occur. -/
def afterFirst (pat : List Char) : List Char → Option (List Char)
  | [] => if leadsWith pat [] then some [] else none
  | c :: cs =>
    if leadsWith pat (c :: cs) then some ((c :: cs).drop pat.length)
    else afterFirst pat cs

/-- Everything before the first occurrence of `pat` (all of `l` if `pat`
does not occur). -/
def upToFirst (pat : List Char) : List Char → List Char
  | [] => []
  | c :: cs =>
    if leadsWith pat (c :: cs) then [] else c :: upToFirst pat cs

/-- JS `s.split(sep)[1]` for a non-empty separator: the chunk between the
first and second occurrences of `sep` (`undefined` when `sep` does not
occur). -/
def splitSecond (s sep : String) : Option String :=
  (afterFirst sep.data s.data).map (fun rest => String.mk (upToFirst sep.data rest))

/-- JS `s.replace(pat, repl)` with a string pattern: first occurrence only. -/
def replaceFirstSeq (pat repl : List Char) : List Char → List Char
  | [] => []
  | c :: cs =>
    if leadsWith pat (c :: cs) then repl ++ (c :: cs).drop pat.length
    else c :: replaceFirstSeq pat repl cs

/-- JS first-occurrence string replacement. -/
def replaceFirst (s pat repl : String) : String :=
  String.mk (replaceFirstSeq pat.data repl.data s.data)

/-! ## The Piped resolver (`src/services/musicService.ts`, lines 105–154)

`getStreamUrl` iterates a shuffled copy of `STREAM_APIS`; the shuffle is
nondeterministic, so the embedding takes the already-shuffled candidate
list as input.  Each candidate answers at most one search request and one
streams request; those observable answers are the candidate's state. -/

/-- One item of a Piped `search` response. -/
structure SearchItem where
  itemType : String
  url : String
deriving Repr, DecidableEq

/-- One entry of a Piped `streams` response's `audioStreams`. -/
structure AudioStream where
  mimeType : String
  url : String
deriving Repr, DecidableEq

/-- Observable outcome of one `fetchWithTimeout` + `.json()` round trip:
thrown (network error, timeout, malformed JSON), non-success HTTP status,
or a parsed payload. -/
inductive FetchResult (α : Type) where
  | thrown
  | badStatus
  | ok (payload : α)
deriving Repr, DecidableEq

/-- One candidate endpoint's behaviour for this resolution: its answer to
the search request, and its answer to the streams request.  In each `ok`
payload the `Option` models the field (`items` / `audioStreams`) being
absent from the JSON. -/
structure PipedCandidate where
  search : FetchResult (Option (List SearchItem))
  streams : FetchResult (Option (List AudioStream))
deriving Repr, DecidableEq

/-- `items.find(i => i.type === 'stream')?.url.split('/watch?v=')[1]`
followed by the `if (!videoId) continue` falsiness test (an absent chunk
and an empty chunk are both falsy). -/
def videoIdOf (items : List SearchItem) : Option String :=
  match items.find? (fun i => i.itemType == "stream") with
  | none => none
  | some i =>
    match splitSecond i.url "/watch?v=" with
    | none => none
    | some v => if v = "" then none else some v

/-- `s.mimeType.includes('mp4') || s.mimeType.includes('m4a')`. -/
def isMp4Stream (s : AudioStream) : Bool :=
  includesStr s.mimeType "mp4" || includesStr s.mimeType "m4a"

/-- `s.mimeType.includes('webm')`. -/
def isWebmStream (s : AudioStream) : Bool :=
  includesStr s.mimeType "webm"

/-- The stream-variant selection (lines 141–143): first mp4/m4a, else
first webm, else the first offered. -/
def bestStream (audioStreams : List AudioStream) : Option AudioStream :=
  match audioStreams.find? isMp4Stream with
  | some s => some s
  | none =>
    match audioStreams.find? isWebmStream with
    | some s => some s
    | none => audioStreams.head?

/-- The body of the `for` loop for one candidate: `none` means the loop
`continue`s to the next candidate, `some u` means `getStreamUrl` returns
`u`. -/
def tryCandidate (cand : PipedCandidate) : Option String :=
  match cand.search with
  | .thrown => none
  | .badStatus => none
  | .ok itemsOpt =>
    match itemsOpt with
    | none => none
    | some items =>
      if items.isEmpty then none
      else
        match videoIdOf items with
        | none => none
        | some _vid =>
          match cand.streams with
          | .thrown => none
          | .badStatus => none
          | .ok streamsOpt =>
            match streamsOpt with
            | none => none
            | some audioStreams =>
              if audioStreams.isEmpty then none
              else
                match bestStream audioStreams with
                | some s => some s.url
                | none => none

/-- `getStreamUrl` over the shuffled candidate pool: first candidate that
yields a usable URL wins; `none` (JS `null`) once the pool is exhausted. -/
def getStreamUrl : List PipedCandidate → Option String
  | [] => none
  | cand :: rest =>
    match tryCandidate cand with
    | some u => some u
    | none => getStreamUrl rest

/-! ## iTunes search (`src/services/musicService.ts`, lines 63–99) -/

/-- One result object of the iTunes search response. -/
structure ItunesResult where
  trackId : Nat
  trackName : String
  artistName : String
  collectionName : String
  artworkUrl100 : String
  previewUrl : String
  trackTimeMillis : Nat
deriving Repr, DecidableEq

/-- The mapping of an iTunes result to a `Song` (lines 74–84). -/
def itunesToSong (item : ItunesResult) : Song :=
  { id := toString item.trackId
    title := item.trackName
    artist := item.artistName
    album := item.collectionName
    coverUrl := replaceFirst item.artworkUrl100 "100x100" "600x600"
    audioUrl := ""
    previewUrl := some item.previewUrl
    duration := item.trackTimeMillis / 1000
    isLocal := false
    lyrics := none }

/-- The hard-coded `FALLBACK_SONGS` of `musicService.ts` (lines 174–193). -/
def FALLBACK_SONGS : List Song :=
  [ { id := "fb1", title := "Blinding Lights", artist := "The Weeknd",
      album := "After Hours",
      coverUrl := "https://upload.wikimedia.org/wikipedia/en/e/e6/The_Weeknd_-_Blinding_Lights.png",
      audioUrl := "https://www.soundhelix.com/examples/mp3/SoundHelix-Song-1.mp3",
      previewUrl := none, duration := 200, isLocal := false, lyrics := none },
    { id := "fb2", title := "Shape of You", artist := "Ed Sheeran",
      album := "Divide",
      coverUrl := "https://upload.wikimedia.org/wikipedia/en/4/45/Divide_cover.png",
      audioUrl := "https://www.soundhelix.com/examples/mp3/SoundHelix-Song-2.mp3",
      previewUrl := none, duration := 233, isLocal := false, lyrics := none } ]

/-- The `trendingSearches` pool of `getFeaturedSongs` (line 96). -/
def trendingSearches : List String :=
  ["Top Hits 2024", "Global Top 50", "Billboard Hot 100", "Viral Hits",
   "Punjabi Hits", "Lofi Beats", "Taylor Swift", "Arijit Singh", "The Weeknd"]

/-- The randomly drawn trending query; the random draw is externalized as
the index `k` (reduced modulo the pool size, as `Math.floor(Math.random()
* length)` always lands in range). -/
def trendingQuery (k : Nat) : String :=
  trendingSearches.getD (k % trendingSearches.length) ""

/-- The non-empty-query body of `searchSongs` (lines 66–89): the provider
is the iTunes API; `none` folds together a thrown fetch, a non-ok status
and a malformed payload, all of which land in the `catch` that returns
`FALLBACK_SONGS`. -/
def searchCore (provider : String → Option (List ItunesResult)) (query : String) :
    List Song :=
  match provider query with
  | some results => results.map itunesToSong
  | none => FALLBACK_SONGS

/-- `searchSongs` (lines 63–90): the empty query (the only falsy string)
delegates to `getFeaturedSongs`, which searches the drawn trending query;
on the JS side that re-enters `searchSongs` with the (never empty)
trending query, which is `searchCore` again. -/
def searchSongs (provider : String → Option (List ItunesResult)) (k : Nat)
    (query : String) : List Song :=
  if query = "" then searchCore provider (trendingQuery k)
  else searchCore provider query

/-- `getFeaturedSongs` (lines 95–99). -/
def getFeaturedSongs (provider : String → Option (List ItunesResult)) (k : Nat) :
    List Song :=
  searchSongs provider k (trendingQuery k)

/-! ## Audius search (`src/components/SongList.tsx`, lines 89–237 of the
packed file) -/

/-- The nested `artwork` object of an Audius track. -/
structure AudiusArtwork where
  size480 : Option String
  size150 : Option String
deriving Repr, DecidableEq

/-- One Audius track item as consumed by `mapAudiusSong`. -/
structure AudiusItem where
  id : String
  title : String
  userName : Option String
  genre : Option String
  artwork : Option AudiusArtwork
  duration : Nat
deriving Repr, DecidableEq

/-- `mapAudiusSong`: items with a falsy id or title are dropped; artist and
album fall back on sentinels; artwork prefers 480x480, then 150x150, then
the placeholder when the whole object is absent (an absent nested field is
rendered as the empty string, JS `undefined`). -/
def mapAudiusSong (item : AudiusItem) : Option Song :=
  if item.id = "" ∨ item.title = "" then none
  else some
    { id := item.id
      title := item.title
      artist := match item.userName with
        | some n => if n = "" then "Unknown Artist" else n
        | none => "Unknown Artist"
      album := match item.genre with
        | some g => if g = "" then "Single" else g
        | none => "Single"
      coverUrl := match item.artwork with
        | some a =>
          (match a.size480 with
           | some u => if u = "" then a.size150.getD "" else u
           | none => a.size150.getD "")
        | none => "https://images.unsplash.com/photo-1493225255756-d9584f8606e9?w=400&h=400&fit=crop"
      audioUrl := ""
      previewUrl := none
      duration := item.duration
      isLocal := false
      lyrics := none }

/-- The Audius `FALLBACK_SONGS` ids (the full records add nothing to any
claim; the list's length and ids are kept). -/
def audiusFallbackSongs : List Song :=
  [ { id := "local-1", title := "Lost in the City", artist := "Neon Dreams",
      album := "Cyber Vibes", coverUrl := "c1",
      audioUrl := "https://cdn.pixabay.com/audio/2022/03/10/audio_5a21350a4b.mp3",
      previewUrl := none, duration := 180, isLocal := false, lyrics := none },
    { id := "local-2", title := "Midnight Drive", artist := "Retro Wave",
      album := "Synth Collection", coverUrl := "c2",
      audioUrl := "https://cdn.pixabay.com/audio/2022/03/15/audio_734005273a.mp3",
      previewUrl := none, duration := 195, isLocal := false, lyrics := none },
    { id := "local-3", title := "Deep Focus", artist := "Mindset",
      album := "Work Flow", coverUrl := "c3",
      audioUrl := "https://cdn.pixabay.com/audio/2022/05/27/audio_1808fbf87a.mp3",
      previewUrl := none, duration := 210, isLocal := false, lyrics := none } ]

/-- Audius `getFeaturedSongs`: trending fetch, else the static fallback
set.  `fetch` maps an endpoint path to the parsed `data` array (`none`
folds together every `fetchJson` failure). -/
def audiusFeatured (fetch : String → Option (List AudiusItem)) : List Song :=
  match fetch "/v1/tracks/trending" with
  | some items => items.filterMap mapAudiusSong
  | none => audiusFallbackSongs

/-- Audius `searchSongs`: the empty query delegates to `getFeaturedSongs`;
otherwise search, with failures yielding the empty list. -/
def audiusSearch (fetch : String → Option (List AudiusItem)) (query : String) :
    List Song :=
  if query = "" then audiusFeatured fetch
  else
    match fetch ("/v1/tracks/search?query=" ++ query) with
    | some items => items.filterMap mapAudiusSong
    | none => []

/-! ## AI playlist generation (`handleAIGenerate`, V1 lines 384–406 and V2
lines 955–980) -/

/-- The playlist accumulation common to both variants: take at most 5
suggested titles, search each, push the first result of each non-empty
result list, in order. -/
def newPlaylist (search : String → List Song) (titles : List String) : List Song :=
  ((titles.take 5).map search).foldl
    (fun acc resList =>
      match resList with
      | [] => acc
      | s :: _ => acc ++ [s])
    []

/-- `handleAIGenerate` (V1): on a non-empty playlist, install it and hand
its first song to `handlePlaySong`; on an empty playlist, surface the
notice and fall back to `getFeaturedSongs()` (the `featured` argument).
Result: (new song list, song handed to play, notice surfaced). -/
def handleAIGenerateV1 (search : String → List Song) (featured : List Song)
    (titles : List String) (_songs0 : List Song) :
    List Song × Option Song × Bool :=
  let pl := newPlaylist search titles
  if pl.length > 0 then (pl, pl.head?, false) else (featured, none, true)

/-- `handleAIGenerate` (V2): same construction, but on an empty playlist it
only surfaces the notice — the song list is left unchanged and trending is
never consulted. -/
def handleAIGenerateV2 (search : String → List Song)
    (titles : List String) (songs0 : List Song) :
    List Song × Option Song × Bool :=
  let pl := newPlaylist search titles
  if pl.length > 0 then (pl, pl.head?, false) else (songs0, none, true)

/-! ## Concrete tracks and states used by the closed theorems and
witnesses -/

/-- A remote track that still needs resolution (no audio URL yet). -/
def trackA : Song :=
  { id := "A1", title := "Alpha", artist := "Ann", album := "One",
    coverUrl := "covA", audioUrl := "", previewUrl := none,
    duration := 100, isLocal := false, lyrics := none }

/-- A local track with a usable URL (never resolved). -/
def trackB : Song :=
  { id := "B2", title := "Beta", artist := "Bob", album := "Two",
    coverUrl := "covB", audioUrl := "blob:device-import-1", previewUrl := none,
    duration := 90, isLocal := true, lyrics := none }

/-- A remote track carrying an iTunes preview URL. -/
def trackP : Song :=
  { id := "P1", title := "Preview Me", artist := "Pat", album := "Three",
    coverUrl := "covP", audioUrl := "",
    previewUrl := some "https://audio-ssl.itunes.example/preview-p1.m4a",
    duration := 30, isLocal := false, lyrics := none }

/-- A remote track with no preview URL. -/
def trackN : Song :=
  { id := "N1", title := "No Preview", artist := "Nia", album := "Four",
    coverUrl := "covN", audioUrl := "", previewUrl := none,
    duration := 120, isLocal := false, lyrics := none }

/-- A non-local track whose `audioUrl` is non-empty but no longer than 5
characters. -/
def shortUrlSong : Song :=
  { id := "S1", title := "Short", artist := "Sam", album := "Five",
    coverUrl := "covS", audioUrl := "x", previewUrl := none,
    duration := 60, isLocal := false, lyrics := none }

/-- The idle V2 state: both demo tracks queued, nothing current. -/
def st0 : V2State :=
  { songs := [trackA, trackB], currentSong := none, isPlaying := false,
    isResolvingAudio := false, usingPreview := false, showLyrics := false,
    alerts := [] }

/-- State after `play(trackA)` starts (resolution of A in flight). -/
def stAfterA : V2State := (playSongStartV2 st0 trackA none).1

/-- State after the user immediately also taps `play(trackB)` (B is local,
so no resolution starts for it). -/
def stAfterB : V2State := (playSongStartV2 stAfterA trackB none).1

/-- The URL trackA's resolution eventually produces. -/
def fullUrlA : String := "https://pipedproxy.example/stream/a1.m4a"

/-- State after trackA's stale resolution completes while trackB is the
current track. -/
def stStale : V2State := playSongCompleteV2 stAfterB trackA (.resolved fullUrlA)

/-- Claim C1: the stale-resolution guard required by the spec is absent
from the V2 `handlePlaySong` (`src/unnamed/part_000`, lines 871–876): after
`play(trackA); play(trackB)` with A's resolution completing last, the
completion overwrites `currentSong` with the resolved copy of A — the
current track and the derived sink source both change, instead of the
stale result being discarded.  (The V1 auto-resolve effect, lines 174–177,
does carry the guard; see `autoResolveCompleteV1`.)  This theorem
evaluates the embedded code at the failing input and exhibits the
hijack. -/
theorem stale_resolution_hijacks_current_track :
    (playSongStartV2 st0 trackA none).2 = true ∧
    stAfterB.currentSong = some trackB ∧
    derivedSrcV2 stAfterB = some "blob:device-import-1" ∧
    stStale.currentSong = some { trackA with audioUrl := fullUrlA } ∧
    derivedSrcV2 stStale = some fullUrlA ∧
    trackA.id ≠ trackB.id ∧
    autoResolveCompleteV1 (some trackB) trackA fullUrlA = some trackB := by
  refine ⟨rfl, by decide, by decide, by decide, by decide, by decide, by decide⟩

/-- Claim C8 counterexample: a non-local track whose stream URL is
non-empty (here `"x"`, length 1 ≤ 5) still triggers the Resolver in the V2
`handlePlaySong` — the skip test is `song.audioUrl.length > 5`, not
"non-empty" — and resolution is marked in flight, refuting the claim as
stated. -/
theorem short_nonempty_url_still_resolves :
    (playSongStartV2 st0 shortUrlSong none).2 = true ∧
    (playSongStartV2 st0 shortUrlSong none).1.isResolvingAudio = true ∧
    shortUrlSong.audioUrl ≠ "" ∧ shortUrlSong.isLocal = false := by
  refine ⟨by decide, by decide, by decide, by decide⟩

/-- Claim C9 counterexample: with every search coming back empty, the V2
`handleAIGenerate` (`src/unnamed/part_000`, lines 955–980) surfaces the
notice and returns the song list unchanged; it takes no `featured`/
trending input at all, so the claimed fall-back to the trending list does
not happen in this caller (only the V1 caller, lines 400–404, falls back —
see `handleAIGenerateV1`). -/
theorem ai_generate_v2_no_trending_fallback :
    handleAIGenerateV2 (fun _ => []) ["A", "B", "C", "D", "E"] [trackA, trackB]
      = ([trackA, trackB], none, true) := by
  decide

/-! ## Claim C2: total-resolution-failure fallback policy -/

/-- Claim C2: for a `play(track)` on a non-local track that is not the
current track and actually resolves (URL not longer than 5 chars), with
the Resolver answering `null` (NotFound): if the track carries a (truthy)
preview URL the final state keeps playing on the fallback preview; if not,
the intent is reverted to paused and the "Song unavailable." notice is
surfaced.  Resolution is invoked and later marked no longer in flight. -/
theorem resolution_notFound_fallback_policy
    (st : V2State) (song : Song)
    (hcur : sameId st.currentSong song = false)
    (hloc : song.isLocal = false)
    (hurl : ¬ song.audioUrl.length > 5) :
    (handlePlaySongV2 st song none .nullResult).2 = true ∧
    (handlePlaySongV2 st song none .nullResult).1.isResolvingAudio = false ∧
    (optTruthy song.previewUrl = true →
      (handlePlaySongV2 st song none .nullResult).1.usingPreview = true ∧
      (handlePlaySongV2 st song none .nullResult).1.isPlaying = true) ∧
    (optTruthy song.previewUrl = false →
      (handlePlaySongV2 st song none .nullResult).1.isPlaying = false ∧
      "Song unavailable." ∈ (handlePlaySongV2 st song none .nullResult).1.alerts) := by
  have hcond : ¬ (song.isLocal = true ∨ song.audioUrl.length > 5) := by
    simp [hloc, hurl]
  simp only [handlePlaySongV2, playSongStartV2, playSongCompleteV2, hcur,
    Bool.false_eq_true, if_false, hcond, if_true]
  cases hp : optTruthy song.previewUrl <;>
    simp [hp, playSongCompleteV2]

/-- Witness for C2 at concrete inputs: `trackP` (preview present) keeps
playing on the fallback preview; `trackN` (no preview) is paused with the
notice surfaced. -/
theorem resolution_notFound_fallback_policy_witness :
    ((handlePlaySongV2 st0 trackP none .nullResult).1.usingPreview = true ∧
     (handlePlaySongV2 st0 trackP none .nullResult).1.isPlaying = true) ∧
    ((handlePlaySongV2 st0 trackN none .nullResult).1.isPlaying = false ∧
     "Song unavailable." ∈ (handlePlaySongV2 st0 trackN none .nullResult).1.alerts) := by
  constructor
  · exact (resolution_notFound_fallback_policy st0 trackP (by decide) (by decide)
      (by decide)).2.2.1 (by decide)
  · exact (resolution_notFound_fallback_policy st0 trackN (by decide) (by decide)
      (by decide)).2.2.2 (by decide)

/-! ## Claim C7: same-track play toggles the intent -/

/-- Claim C7: when `play(track)` is called with the current track's id, the
playing intent is toggled, the Resolver is not invoked, the current track
and the derived sink source are unchanged — in both App variants (the V1
handler additionally requires the track's id to be truthy, which every
track produced by the services satisfies). -/
theorem same_track_play_toggles_intent
    (st : V2State) (song : Song) (ctx : Option (List Song)) (outcome : ResolveOutcome)
    (h : sameId st.currentSong song = true) :
    (handlePlaySongV2 st song ctx outcome).2 = false ∧
    (handlePlaySongV2 st song ctx outcome).1.isPlaying = !st.isPlaying ∧
    (handlePlaySongV2 st song ctx outcome).1.currentSong = st.currentSong ∧
    derivedSrcV2 (handlePlaySongV2 st song ctx outcome).1 = derivedSrcV2 st ∧
    (∀ (st1 : V1State) (sg : Song), sg.id ≠ "" → sameId st1.currentSong sg = true →
      (handlePlaySongV1 st1 (some sg) ctx).isPlaying = !st1.isPlaying ∧
      (handlePlaySongV1 st1 (some sg) ctx).currentSong = st1.currentSong) := by
  have h2 : (playSongStartV2 st song ctx).2 = false := by
    cases ctx with
    | none => simp [playSongStartV2, h]
    | some cs => by_cases hcs : cs = st.songs <;> simp [playSongStartV2, h, hcs]
  have hplay : (playSongStartV2 st song ctx).1.isPlaying = !st.isPlaying := by
    cases ctx with
    | none => simp [playSongStartV2, h]
    | some cs => by_cases hcs : cs = st.songs <;> simp [playSongStartV2, h, hcs]
  have hcur2 : (playSongStartV2 st song ctx).1.currentSong = st.currentSong := by
    cases ctx with
    | none => simp [playSongStartV2, h]
    | some cs => by_cases hcs : cs = st.songs <;> simp [playSongStartV2, h, hcs]
  have hup : (playSongStartV2 st song ctx).1.usingPreview = st.usingPreview := by
    cases ctx with
    | none => simp [playSongStartV2, h]
    | some cs => by_cases hcs : cs = st.songs <;> simp [playSongStartV2, h, hcs]
  have hfull : handlePlaySongV2 st song ctx outcome = ((playSongStartV2 st song ctx).1, false) := by
    simp [handlePlaySongV2, h2]
  refine ⟨by simp [hfull], by simp [hfull, hplay], by simp [hfull, hcur2], ?_, ?_⟩
  · simp [hfull, derivedSrcV2, hcur2, hup]
  · intro st1 sg hid hsame
    cases hctx : ctx with
    | none => simp [handlePlaySongV1, hid, hsame]
    | some cs =>
      by_cases hcs : cs = st1.songs <;> simp [handlePlaySongV1, hid, hsame, hcs]

/-- Witness for C7: replaying the current track `trackB` while playing
pauses; the Resolver stays idle and the source is untouched. -/
theorem same_track_play_toggles_intent_witness :
    (handlePlaySongV2 stAfterB trackB none .nullResult).2 = false ∧
    (handlePlaySongV2 stAfterB trackB none .nullResult).1.isPlaying = !stAfterB.isPlaying ∧
    derivedSrcV2 (handlePlaySongV2 stAfterB trackB none .nullResult).1 = derivedSrcV2 stAfterB := by
  have h := same_track_play_toggles_intent stAfterB trackB none .nullResult (by decide)
  exact ⟨h.1, h.2.1, h.2.2.2.1⟩

/-! ## Claim C3: mid-stream failure falls back to preview once, then
skips -/

/-- Claim C3: on a sink `error` while the intent is playing, with the
fallback not yet used and the current track carrying a (truthy) preview
URL, the V2 `onError` listener switches the sink source to the preview
URL (resetting the position to 0), marks the fallback as used and keeps
the same current track; a second error on the resulting state falls
through to the skip branch; and in every playing state already on the
fallback — or whose current track has no truthy preview URL — the listener
advances to the next track instead. -/
theorem onError_preview_fallback_once
    (st : V2State) (sink : Sink) (c : Song) (p : String)
    (hcur : st.currentSong = some c)
    (hplay : st.isPlaying = true)
    (hfb : st.usingPreview = false)
    (hp : c.previewUrl = some p) (hpne : p ≠ "") :
    (onErrorV2 st sink).1.usingPreview = true ∧
    (onErrorV2 st sink).1.currentSong = some c ∧
    (onErrorV2 st sink).1.isPlaying = true ∧
    (onErrorV2 st sink).2.1.src = some p ∧
    (onErrorV2 st sink).2.1.time = 0 ∧
    (onErrorV2 st sink).2.2 = .fallbackPreview ∧
    (∀ sink2, (onErrorV2 (onErrorV2 st sink).1 sink2).2.2 = .skipNext) ∧
    (∀ (st2 : V2State) (sink2 : Sink), st2.isPlaying = true →
      (st2.usingPreview = true ∨
        ∀ c2, st2.currentSong = some c2 → optTruthy c2.previewUrl = false) →
      (onErrorV2 st2 sink2).2.2 = .skipNext) := by
  have htr : optTruthy c.previewUrl = true := by simp [optTruthy, hp, hpne]
  have hfirst : onErrorV2 st sink =
      ({ st with usingPreview := true }, { sink with src := c.previewUrl, time := 0 },
        .fallbackPreview) := by
    simp [onErrorV2, hcur, hplay, hfb, htr]
  refine ⟨by simp [hfirst], by simp [hfirst, hcur], by simp [hfirst, hplay],
    by simp [hfirst, hp], by simp [hfirst], by simp [hfirst], ?_, ?_⟩
  · intro sink2
    rw [hfirst]
    simp [onErrorV2, hcur, hplay]
  · intro st2 sink2 hplay2 hcase
    cases hcur2 : st2.currentSong with
    | none => simp [onErrorV2, hcur2, hplay2]
    | some c2 =>
      rcases hcase with hfb2 | hnp
      · simp [onErrorV2, hcur2, hplay2, hfb2]
      · simp [onErrorV2, hcur2, hplay2, hnp c2 hcur2]

/-- Witness for C3: the state playing `trackP` (preview present) hits a
sink error and downgrades exactly once. -/
theorem onError_preview_fallback_once_witness :
    (onErrorV2 { st0 with currentSong := some trackP, isPlaying := true }
        { src := some "", time := 37 }).2.2 = ErrorStep.fallbackPreview ∧
    (onErrorV2 { st0 with currentSong := some trackP, isPlaying := true }
        { src := some "", time := 37 }).2.1.src =
      some "https://audio-ssl.itunes.example/preview-p1.m4a" ∧
    (onErrorV2 { st0 with currentSong := some trackP, isPlaying := true }
        { src := some "", time := 37 }).2.1.time = 0 := by
  have h := onError_preview_fallback_once
    { st0 with currentSong := some trackP, isPlaying := true }
    { src := some "", time := 37 } trackP
    "https://audio-ssl.itunes.example/preview-p1.m4a"
    (by decide) (by decide) (by decide) (by decide) (by decide)
  exact ⟨h.2.2.2.2.2.1, h.2.2.2.1, h.2.2.2.2.1⟩

/-! ## Claims C4 and C5: the resolver's pool traversal and variant
selection -/

/-- `List.find?` returns the FIRST satisfier: when every element of the
prefix fails the predicate and the element at the joint satisfies it,
that element is found, whatever sits behind it. -/
theorem find_first {α : Type} (p : α → Bool) :
    ∀ (l₁ : List α) (a : α) (l₂ : List α), (∀ x ∈ l₁, p x = false) → p a = true →
      (l₁ ++ a :: l₂).find? p = some a := by
  intro l₁
  induction l₁ with
  | nil =>
    intro a l₂ _ hpa
    exact List.find?_cons_of_pos _ hpa
  | cons x xs ih =>
    intro a l₂ hall hpa
    rw [List.cons_append,
      List.find?_cons_of_neg _ (by simp [hall x (List.mem_cons_self x xs)])]
    exact ih a l₂ (fun y hy => hall y (List.mem_cons_of_mem _ hy)) hpa

/-- Claim C5: `bestStream` selects the FIRST stream whose mimeType matches
mp4/m4a — every stream before it failing that test, with arbitrary
streams (further mp4, webm or unknown variants included) after it; when
no stream of the list matches mp4/m4a it selects the first webm stream,
again regardless of what follows; and when neither kind occurs it selects
the first stream offered. -/
theorem bestStream_prefers_mp4_then_webm :
    (∀ (l₁ : List AudioStream) (a : AudioStream) (l₂ : List AudioStream),
      (∀ x ∈ l₁, isMp4Stream x = false) → isMp4Stream a = true →
      bestStream (l₁ ++ a :: l₂) = some a) ∧
    (∀ (l₁ : List AudioStream) (a : AudioStream) (l₂ : List AudioStream),
      (∀ x ∈ l₁ ++ a :: l₂, isMp4Stream x = false) →
      (∀ x ∈ l₁, isWebmStream x = false) → isWebmStream a = true →
      bestStream (l₁ ++ a :: l₂) = some a) ∧
    (∀ l : List AudioStream, (∀ x ∈ l, isMp4Stream x = false ∧ isWebmStream x = false) →
      bestStream l = l.head?) := by
  refine ⟨?_, ?_, ?_⟩
  · intro l₁ a l₂ hpre hpa
    rw [bestStream, find_first isMp4Stream l₁ a l₂ hpre hpa]
  · intro l₁ a l₂ hnomp4 hpre hpa
    have h1 : (l₁ ++ a :: l₂).find? isMp4Stream = none := by
      rw [List.find?_eq_none]
      intro x hx
      simp [hnomp4 x hx]
    rw [bestStream, h1, find_first isWebmStream l₁ a l₂ hpre hpa]
  · intro l hnone
    have h1 : l.find? isMp4Stream = none := by
      rw [List.find?_eq_none]; intro x hx; simp [(hnone x hx).1]
    have h2 : l.find? isWebmStream = none := by
      rw [List.find?_eq_none]; intro x hx; simp [(hnone x hx).2]
    rw [bestStream, h1, h2]

/-- An mp4 audio stream descriptor. -/
def mp4Demo : AudioStream :=
  { mimeType := "audio/mp4; codecs=mp4a.40.2", url := "https://proxy.example/a.mp4" }

/-- A second, distinct mp4 audio stream descriptor. -/
def mp4DemoB : AudioStream :=
  { mimeType := "audio/mp4; codecs=mp4a.40.5", url := "https://proxy.example/b.mp4" }

/-- A webm audio stream descriptor. -/
def webmDemo : AudioStream :=
  { mimeType := "audio/webm; codecs=opus", url := "https://proxy.example/a.webm" }

/-- A second, distinct webm audio stream descriptor. -/
def webmDemoB : AudioStream :=
  { mimeType := "audio/webm; codecs=vorbis", url := "https://proxy.example/b.webm" }

/-- An audio stream descriptor of a third, unknown mimetype. -/
def oggDemo : AudioStream :=
  { mimeType := "audio/ogg; codecs=vorbis", url := "https://proxy.example/a.ogg" }

/-- Witness for C5 on multi-match lists: with two distinct mp4 variants
present, the FIRST of them is selected even though it is listed after the
webm and unknown entries; with no mp4 variant, the first of two distinct
webm variants is selected. -/
theorem bestStream_prefers_mp4_then_webm_witness :
    bestStream [oggDemo, webmDemo, mp4Demo, mp4DemoB] = some mp4Demo ∧
    bestStream [oggDemo, webmDemo, webmDemoB] = some webmDemo ∧
    mp4Demo ≠ mp4DemoB ∧ webmDemo ≠ webmDemoB := by
  refine ⟨?_, ?_, by decide, by decide⟩
  · exact bestStream_prefers_mp4_then_webm.1 [oggDemo, webmDemo] mp4Demo [mp4DemoB]
      (by decide) (by decide)
  · exact bestStream_prefers_mp4_then_webm.2.1 [oggDemo] webmDemo [webmDemoB]
      (by decide) (by decide) (by decide)

/-- Claim C4: `getStreamUrl` performs a single pass over the shuffled
pool: it is `none` exactly when every candidate fails (every sub-step
failure only skips that candidate — nothing aborts the whole resolution);
a failing head is skipped; a usable head short-circuits; and the first
usable candidate determines the result no matter what sits after it in
the pool (no retry of the pool). -/
theorem getStreamUrl_single_pass_exhaustion :
    (∀ l, getStreamUrl l = none ↔ ∀ cand ∈ l, tryCandidate cand = none) ∧
    (∀ cand l, tryCandidate cand = none → getStreamUrl (cand :: l) = getStreamUrl l) ∧
    (∀ cand l u, tryCandidate cand = some u → getStreamUrl (cand :: l) = some u) ∧
    (∀ (l₁ : List PipedCandidate) (cand : PipedCandidate) (l₂ l₂' : List PipedCandidate) u,
      (∀ j ∈ l₁, tryCandidate j = none) → tryCandidate cand = some u →
      getStreamUrl (l₁ ++ cand :: l₂) = some u ∧
      getStreamUrl (l₁ ++ cand :: l₂) = getStreamUrl (l₁ ++ cand :: l₂')) := by
  have hskip : ∀ cand l, tryCandidate cand = none →
      getStreamUrl (cand :: l) = getStreamUrl l := by
    intro cand l h
    simp [getStreamUrl, h]
  have hhit : ∀ cand l u, tryCandidate cand = some u →
      getStreamUrl (cand :: l) = some u := by
    intro cand l u h
    simp [getStreamUrl, h]
  have hnone : ∀ l, getStreamUrl l = none ↔ ∀ cand ∈ l, tryCandidate cand = none := by
    intro l
    induction l with
    | nil => simp [getStreamUrl]
    | cons c cs ih =>
      cases h : tryCandidate c with
      | some u =>
        rw [hhit c cs u h]
        simp only [List.mem_cons]
        constructor
        · intro habs; cases habs
        · intro hall
          have := hall c (Or.inl rfl)
          rw [h] at this; cases this
      | none =>
        rw [hskip c cs h]
        rw [ih]
        constructor
        · intro hall cand hc
          rcases List.mem_cons.mp hc with rfl | hmem
          · exact h
          · exact hall cand hmem
        · intro hall cand hc
          exact hall cand (List.mem_cons_of_mem _ hc)
  have hfirst : ∀ (l₁ : List PipedCandidate) (cand : PipedCandidate)
      (l₂ : List PipedCandidate) u, (∀ j ∈ l₁, tryCandidate j = none) →
      tryCandidate cand = some u → getStreamUrl (l₁ ++ cand :: l₂) = some u := by
    intro l₁
    induction l₁ with
    | nil => intro cand l₂ u _ h; exact hhit cand l₂ u h
    | cons j js ih =>
      intro cand l₂ u hall h
      rw [List.cons_append, hskip j _ (hall j (List.mem_cons_self j js))]
      exact ih cand l₂ u (fun x hx => hall x (List.mem_cons_of_mem _ hx)) h
  refine ⟨hnone, hskip, hhit, ?_⟩
  intro l₁ cand l₂ l₂' u hall h
  exact ⟨hfirst l₁ cand l₂ u hall h,
    (hfirst l₁ cand l₂ u hall h).trans (hfirst l₁ cand l₂' u hall h).symm⟩

/-- A candidate that times out on search. -/
def deadCandidate : PipedCandidate := { search := .thrown, streams := .thrown }

/-- A candidate with a good search hit but a malformed streams payload. -/
def malformedCandidate : PipedCandidate :=
  { search := .ok (some [{ itemType := "stream", url := "https://yt.example/watch?v=zz9" }]),
    streams := .thrown }

/-- A fully working candidate. -/
def goodCandidate : PipedCandidate :=
  { search := .ok (some [{ itemType := "channel", url := "https://yt.example/channel/c0" },
                         { itemType := "stream", url := "https://yt.example/watch?v=abc123" }]),
    streams := .ok (some [oggDemo, mp4Demo]) }

/-- Witness for C4: two failing candidates are skipped, the third
resolves, and the result is independent of the pool's tail. -/
theorem getStreamUrl_single_pass_exhaustion_witness :
    getStreamUrl [deadCandidate, malformedCandidate, goodCandidate] =
      some "https://proxy.example/a.mp4" ∧
    getStreamUrl [deadCandidate, malformedCandidate, goodCandidate] =
      getStreamUrl [deadCandidate, malformedCandidate, goodCandidate, deadCandidate] ∧
    getStreamUrl [deadCandidate, malformedCandidate] = none := by
  refine ⟨?_, ?_, ?_⟩
  · exact (getStreamUrl_single_pass_exhaustion.2.2.2
      [deadCandidate, malformedCandidate] goodCandidate [] [deadCandidate]
      "https://proxy.example/a.mp4" (by decide) (by decide)).1
  · exact (getStreamUrl_single_pass_exhaustion.2.2.2
      [deadCandidate, malformedCandidate] goodCandidate [] [deadCandidate]
      "https://proxy.example/a.mp4" (by decide) (by decide)).2
  · exact (getStreamUrl_single_pass_exhaustion.1
      [deadCandidate, malformedCandidate]).mpr (by decide)

/-! ## Claim C8 (amended): the resolver skip condition -/

/-- Claim C8 as amended: `play(track)` on a track that is not the current
one skips the Resolver and marks resolution not in flight when the track
is local or its stream URL is longer than 5 characters (the V2 handler's
actual test, `song.audioUrl.length > 5` — not mere non-emptiness); the
sink is then driven directly from the track's existing URL.  The V1
auto-resolve effect skips for local tracks and for any non-empty URL. -/
theorem local_or_resolved_skips_resolver
    (st : V2State) (song : Song) (ctx : Option (List Song))
    (hne : sameId st.currentSong song = false)
    (h : song.isLocal = true ∨ song.audioUrl.length > 5) :
    (playSongStartV2 st song ctx).2 = false ∧
    (playSongStartV2 st song ctx).1.isResolvingAudio = false ∧
    derivedSrcV2 (playSongStartV2 st song ctx).1 = some song.audioUrl ∧
    (∀ c : Song, c.isLocal = true ∨ c.audioUrl ≠ "" → autoResolveTriggersV1 c = false) := by
  have hV1 : ∀ c : Song, c.isLocal = true ∨ c.audioUrl ≠ "" →
      autoResolveTriggersV1 c = false := by
    intro c hc
    rcases hc with h1 | h1
    · simp [autoResolveTriggersV1, h1]
    · simp [autoResolveTriggersV1, h1]
  cases hl : song.isLocal with
  | true =>
    refine ⟨?_, ?_, ?_, hV1⟩ <;>
      (cases ctx with
       | none => simp [playSongStartV2, hne, hl, derivedSrcV2]
       | some cs =>
         by_cases hcs : cs = st.songs <;>
           simp [playSongStartV2, hne, hl, hcs, derivedSrcV2])
  | false =>
    have hlen : song.audioUrl.length > 5 := by
      rcases h with h1 | h1
      · rw [hl] at h1; cases h1
      · exact h1
    refine ⟨?_, ?_, ?_, hV1⟩ <;>
      (cases ctx with
       | none => simp [playSongStartV2, hne, hl, hlen, derivedSrcV2]
       | some cs =>
         by_cases hcs : cs = st.songs <;>
           simp [playSongStartV2, hne, hl, hlen, hcs, derivedSrcV2])

/-- Witness for C8 (amended) at the local track `trackB`: the Resolver is
not invoked, resolution is not in flight and the sink source is the
track's own URL. -/
theorem local_or_resolved_skips_resolver_witness :
    (playSongStartV2 st0 trackB none).2 = false ∧
    (playSongStartV2 st0 trackB none).1.isResolvingAudio = false ∧
    derivedSrcV2 (playSongStartV2 st0 trackB none).1 = some "blob:device-import-1" ∧
    autoResolveTriggersV1 trackB = false := by
  have h := local_or_resolved_skips_resolver st0 trackB none (by decide) (Or.inl (by decide))
  exact ⟨h.1, h.2.1, h.2.2.1, h.2.2.2 trackB (Or.inl (by decide))⟩

/-! ## Claim C9 (amended): AI playlist construction -/

/-- The `forEach`-and-push accumulation of `handleAIGenerate` collects the
head of each non-empty result list, in order. -/
theorem foldl_push_heads :
    ∀ (ls : List (List Song)) (acc : List Song),
      ls.foldl (fun acc resList =>
        match resList with
        | [] => acc
        | s :: _ => acc ++ [s]) acc = acc ++ ls.filterMap List.head? := by
  intro ls
  induction ls with
  | nil => intro acc; simp
  | cons r rs ih =>
    intro acc
    cases r with
    | nil => simp [List.foldl_cons, ih]
    | cons s tail => simp [List.foldl_cons, ih]

/-- Claim C9 as amended: playlist generation takes at most 5 titles,
keeps the first search match per title in suggestion order and skips
titles with no results (in both callers); on a non-empty playlist either
caller installs it and plays its first track; on zero matches the V1
caller falls back to the featured/trending list, while the V2 caller
surfaces the notice and leaves the song list unchanged. -/
theorem ai_playlist_first_match_per_title :
    (∀ (search : String → List Song) (titles : List String),
      newPlaylist search titles = (titles.take 5).filterMap (fun t => (search t).head?)) ∧
    (∀ (search : String → List Song) (a c e : Song) (la lc le : List Song),
      search "A" = a :: la → search "B" = [] → search "C" = c :: lc →
      search "D" = [] → search "E" = e :: le →
      newPlaylist search ["A", "B", "C", "D", "E"] = [a, c, e]) ∧
    (∀ (search : String → List Song) (featured : List Song) (titles : List String)
        (songs0 : List Song),
      (newPlaylist search titles ≠ [] →
        handleAIGenerateV1 search featured titles songs0 =
          (newPlaylist search titles, (newPlaylist search titles).head?, false) ∧
        handleAIGenerateV2 search titles songs0 =
          (newPlaylist search titles, (newPlaylist search titles).head?, false)) ∧
      (newPlaylist search titles = [] →
        handleAIGenerateV1 search featured titles songs0 = (featured, none, true) ∧
        handleAIGenerateV2 search titles songs0 = (songs0, none, true))) := by
  have hshape : ∀ (search : String → List Song) (titles : List String),
      newPlaylist search titles = (titles.take 5).filterMap (fun t => (search t).head?) := by
    intro search titles
    rw [newPlaylist, foldl_push_heads, List.nil_append, List.filterMap_map]
    rfl
  refine ⟨hshape, ?_, ?_⟩
  · intro search a c e la lc le hA hB hC hD hE
    rw [hshape]
    simp [hA, hB, hC, hD, hE]
  · intro search featured titles songs0
    constructor
    · intro hne
      have hpos : (newPlaylist search titles).length > 0 := List.length_pos.mpr hne
      constructor <;> simp [handleAIGenerateV1, handleAIGenerateV2, hpos]
    · intro hnil
      constructor <;> simp [handleAIGenerateV1, handleAIGenerateV2, hnil]

/-- The scenario search function: titles "B" and "D" yield no results. -/
def searchDemo : String → List Song := fun t =>
  if t = "A" then [trackA, trackB]
  else if t = "C" then [trackP]
  else if t = "E" then [trackN, trackP]
  else []

/-- Witness for C9 (amended): the spec scenario — suggestions
`["A","B","C","D","E"]` with "B" and "D" matchless — produces
`[firstOf(A), firstOf(C), firstOf(E)]`, and the V1 zero-match caller falls
back to the featured list while V2 keeps its song list. -/
theorem ai_playlist_first_match_per_title_witness :
    newPlaylist searchDemo ["A", "B", "C", "D", "E"] = [trackA, trackP, trackN] ∧
    handleAIGenerateV1 (fun _ => []) [trackB] ["A"] [trackA] = ([trackB], none, true) ∧
    handleAIGenerateV2 (fun _ => []) ["A"] [trackA] = ([trackA], none, true) := by
  refine ⟨?_, ?_, ?_⟩
  · exact ai_playlist_first_match_per_title.2.1 searchDemo trackA trackP trackN
      [trackB] [] [trackP] rfl rfl rfl rfl rfl
  · exact ((ai_playlist_first_match_per_title.2.2 (fun _ => []) [trackB] ["A"] [trackA]).2
      (by decide)).1
  · exact ((ai_playlist_first_match_per_title.2.2 (fun _ => []) [trackB] ["A"] [trackA]).2
      (by decide)).2

/-! ## Claim C10: the empty search query delegates to the featured list -/

/-- Claim C10: `searchSongs` with the empty query returns exactly what
`getFeaturedSongs` returns (so it is never empty merely because the query
was empty), the trending query it searches instead is non-empty, and the
result never depends on the provider's behaviour at the empty term (two
providers agreeing on all non-empty terms give the same answer).  The
Audius variant's `searchSongs` delegates identically. -/
theorem empty_query_delegates_to_featured
    (p1 p2 : String → Option (List ItunesResult)) (k : Nat)
    (hagree : ∀ q, q ≠ "" → p1 q = p2 q) :
    searchSongs p1 k "" = getFeaturedSongs p1 k ∧
    trendingQuery k ≠ "" ∧
    searchSongs p1 k "" = searchSongs p2 k "" ∧
    (∀ fetch : String → Option (List AudiusItem),
      audiusSearch fetch "" = audiusFeatured fetch) := by
  have hne : trendingQuery k ≠ "" := by
    have hb : ∀ j, j < trendingSearches.length → trendingSearches.getD j "" ≠ "" := by
      decide
    exact hb _ (Nat.mod_lt _ (by decide))
  have hsearch : ∀ p : String → Option (List ItunesResult),
      searchSongs p k "" = searchCore p (trendingQuery k) := by
    intro p; simp [searchSongs]
  have hfeat : getFeaturedSongs p1 k = searchCore p1 (trendingQuery k) := by
    rw [getFeaturedSongs, searchSongs, if_neg hne]
  refine ⟨?_, hne, ?_, ?_⟩
  · rw [hsearch p1, hfeat]
  · rw [hsearch p1, hsearch p2, searchCore, searchCore, hagree _ hne]
  · intro fetch
    simp [audiusSearch]

/-- Witness for C10 at a concrete pair of providers that differ only on
the empty term. -/
theorem empty_query_delegates_to_featured_witness :
    searchSongs (fun q => if q = "" then some [] else none) 3 "" =
      getFeaturedSongs (fun q => if q = "" then some [] else none) 3 ∧
    searchSongs (fun q => if q = "" then some [] else none) 3 "" =
      searchSongs (fun _ => none) 3 "" := by
  have h := empty_query_delegates_to_featured
    (fun q => if q = "" then some [] else none) (fun _ => none) 3
    (fun q hq => by simp [hq])
  exact ⟨h.1, h.2.2.1⟩

/-! ## Claim C6: queue navigation -/

/-- A found index is within the list. -/
theorem findIdxO_lt_length (p : Song → Bool) :
    ∀ (l : List Song) (i : Nat), findIdxO p l = some i → i < l.length := by
  intro l
  induction l with
  | nil => intro i h; cases h
  | cons x xs ih =>
    intro i h
    rw [findIdxO] at h
    by_cases hx : p x = true
    · rw [if_pos hx] at h
      cases h
      simp only [List.length_cons]
      omega
    · rw [if_neg hx] at h
      cases hfi : findIdxO p xs with
      | none => rw [hfi] at h; cases h
      | some j =>
        rw [hfi] at h
        simp only [Option.map_some', Option.some.injEq] at h
        have := ih j hfi
        simp only [List.length_cons]
        omega

/-- With pairwise-distinct ids, the first index whose id matches the
element at position `j` is `j` itself. -/
theorem findIdxO_get_nodup :
    ∀ (l : List Song) (j : Nat) (x : Song), (l.map Song.id).Nodup →
      l.get? j = some x → findIdxO (fun s => s.id == x.id) l = some j := by
  intro l
  induction l with
  | nil => intro j x _ h; cases h
  | cons y ys ih =>
    intro j x hnd hget
    rw [List.map_cons, List.nodup_cons] at hnd
    cases j with
    | zero =>
      rw [List.get?_cons_zero, Option.some.injEq] at hget
      subst hget
      simp [findIdxO]
    | succ j =>
      rw [List.get?_cons_succ] at hget
      have hx : x ∈ ys := List.get?_mem hget
      have hne : (y.id == x.id) = false := by
        apply beq_eq_false_iff_ne.mpr
        intro he
        exact hnd.1 (he ▸ List.mem_map_of_mem Song.id hx)
      rw [findIdxO, if_neg (by simp [hne]), ih j x hnd.2 hget]
      rfl

/-- `(Int.ofNat m).tmod (Int.ofNat n)` computes the natural remainder. -/
theorem tmod_ofNat (m n : Nat) : (Int.ofNat m).tmod (Int.ofNat n) = Int.ofNat (m % n) :=
  rfl

/-- JS indexing at a natural position is the list lookup. -/
theorem jsIndex_ofNat (l : List Song) (m : Nat) : jsIndex l ((m : Nat) : Int) = l.get? m := by
  simp [jsIndex]

/-- `handleNextV1` on a found current index steps to `(i+1) % length`. -/
theorem handleNextV1_found (songs : List Song) (c : Song) (i : Nat)
    (hfi : findIdxO (fun s => s.id == c.id) songs = some i) :
    handleNextV1 songs (some c) = songs.get? ((i + 1) % songs.length) := by
  have hi : i < songs.length := findIdxO_lt_length _ _ _ hfi
  have hpos : 0 < songs.length := Nat.lt_of_le_of_lt (Nat.zero_le i) hi
  have hmod : (i + 1) % songs.length < songs.length := Nat.mod_lt _ hpos
  rw [handleNextV1, if_neg (Nat.pos_iff_ne_zero.mp hpos), hfi]
  simp only [Option.getD_some]
  rw [List.get?_eq_get hmod]
  simp

/-- `handlePrevV1` on a found current index steps to
`(i + length - 1) % length`. -/
theorem handlePrevV1_found (songs : List Song) (c : Song) (i : Nat)
    (hfi : findIdxO (fun s => s.id == c.id) songs = some i) :
    handlePrevV1 songs (some c) = songs.get? ((i + songs.length - 1) % songs.length) := by
  have hi : i < songs.length := findIdxO_lt_length _ _ _ hfi
  have hpos : 0 < songs.length := Nat.lt_of_le_of_lt (Nat.zero_le i) hi
  have hmod : (i + songs.length - 1) % songs.length < songs.length := Nat.mod_lt _ hpos
  rw [handlePrevV1, if_neg (Nat.pos_iff_ne_zero.mp hpos), hfi]
  simp only [Option.getD_some]
  rw [List.get?_eq_get hmod]
  simp

/-- `handleNextV2` agrees with the found-index stepping of V1. -/
theorem handleNextV2_found (songs : List Song) (c : Song) (i : Nat) (s : Song)
    (hfi : findIdxO (fun x => x.id == c.id) songs = some i)
    (hs : songs.get? ((i + 1) % songs.length) = some s) :
    handleNextV2 songs (some c) = .advanceTo s := by
  have hi : i < songs.length := findIdxO_lt_length _ _ _ hfi
  have hpos : 0 < songs.length := Nat.lt_of_le_of_lt (Nat.zero_le i) hi
  rw [handleNextV2, if_neg (Nat.pos_iff_ne_zero.mp hpos)]
  have hidx : jsFindIndex songs c.id = (i : Int) := by
    rw [jsFindIndex, hfi]
    rfl
  rw [hidx]
  have hcast : ((i : Int) + 1).tmod (songs.length : Int) =
      (((i + 1) % songs.length : Nat) : Int) := by
    have h1 : (i : Int) + 1 = ((i + 1 : Nat) : Int) := by push_cast; ring
    rw [h1]
    rfl
  rw [hcast]
  simp only [jsIndex_ofNat, hs]

/-- `handlePrevV2` agrees with the found-index stepping of V1. -/
theorem handlePrevV2_found (songs : List Song) (c : Song) (i : Nat) (s : Song)
    (hfi : findIdxO (fun x => x.id == c.id) songs = some i)
    (hs : songs.get? ((i + songs.length - 1) % songs.length) = some s) :
    handlePrevV2 songs (some c) = .advanceTo s := by
  have hi : i < songs.length := findIdxO_lt_length _ _ _ hfi
  have hpos : 0 < songs.length := Nat.lt_of_le_of_lt (Nat.zero_le i) hi
  rw [handlePrevV2, if_neg (Nat.pos_iff_ne_zero.mp hpos)]
  have hidx : jsFindIndex songs c.id = (i : Int) := by
    rw [jsFindIndex, hfi]
    rfl
  rw [hidx]
  have hcast : ((i : Int) - 1 + (songs.length : Int)).tmod (songs.length : Int) =
      (((i + songs.length - 1) % songs.length : Nat) : Int) := by
    have h1 : (i : Int) - 1 + (songs.length : Int) =
        ((i + songs.length - 1 : Nat) : Int) := by omega
    rw [h1]
    rfl
  rw [hcast]
  simp only [jsIndex_ofNat, hs]

/-- One V1 `next` step from the element at position `j`, under distinct
ids. -/
theorem handleNextV1_step (songs : List Song) (j : Nat) (x : Song)
    (hnd : (songs.map Song.id).Nodup) (hget : songs.get? j = some x) :
    handleNextV1 songs (some x) = songs.get? ((j + 1) % songs.length) :=
  handleNextV1_found songs x j (findIdxO_get_nodup songs j x hnd hget)

/-- Iterating V1 `next` `k` times from position `i` lands on position
`(i + k) % length`, under distinct ids. -/
theorem handleNextV1_iterate (songs : List Song)
    (hnd : (songs.map Song.id).Nodup) :
    ∀ (k i : Nat) (c : Song), songs.get? i = some c →
      (fun oc => handleNextV1 songs oc)^[k] (some c) =
        songs.get? ((i + k) % songs.length) := by
  intro k
  induction k with
  | zero =>
    intro i c hget
    have hi : i < songs.length := by
      rcases List.get?_eq_some.mp hget with ⟨h, _⟩
      exact h
    rw [Function.iterate_zero_apply, Nat.add_zero, Nat.mod_eq_of_lt hi, hget]
  | succ k ih =>
    intro i c hget
    have hi : i < songs.length := by
      rcases List.get?_eq_some.mp hget with ⟨h, _⟩
      exact h
    have hpos : 0 < songs.length := Nat.lt_of_le_of_lt (Nat.zero_le i) hi
    have hmod : (i + 1) % songs.length < songs.length := Nat.mod_lt _ hpos
    obtain ⟨c1, hc1⟩ : ∃ c1, songs.get? ((i + 1) % songs.length) = some c1 := by
      rw [List.get?_eq_get hmod]
      exact ⟨_, rfl⟩
    rw [Function.iterate_succ_apply]
    have hstep : handleNextV1 songs (some c) = some c1 :=
      (handleNextV1_step songs i c hnd hget).trans hc1
    simp only [hstep]
    rw [ih ((i + 1) % songs.length) c1 hc1, Nat.mod_add_mod]
    have h3 : i + 1 + k = i + (k + 1) := by omega
    rw [h3]

/-- Claim C6 counterexample, refuting the claim as stated at three
concrete inputs.  (1) With the current track's id absent from the queue
`[trackA, trackB]`, the claim ("index treated as 0") predicts `next()`
yields index `(0+1) mod 2 = 1`, i.e. `trackB` — as the guarded V1 handler
indeed does — but the V2 handler (`src/unnamed/part_000`, lines 931–943)
keeps `findIndex`'s `-1` and advances to index `0`, i.e. `trackA`.
(2) On the empty queue V2 evaluates `songs[NaN]` and throws inside
`handlePlaySong(undefined)` instead of being a total no-op.  (3) The
claimed unconditional `N`-step cycle closure fails even in V1 once the
queue holds a duplicated entry (reachable through Add to Queue): on
`[trackA, trackB, trackA]`, three `next()` steps from `trackA` land on
`trackB`, because id-equality always finds the FIRST copy of `trackA`. -/
theorem nav_missing_id_v2_counterexample :
    handleNextV2 [trackA, trackB] (some trackN) = .advanceTo trackA ∧
    handleNextV1 [trackA, trackB] (some trackN) = some trackB ∧
    trackA ≠ trackB ∧
    handleNextV2 [] (some trackN) = .crash ∧
    handlePrevV2 [] (some trackN) = .crash ∧
    (fun oc => handleNextV1 [trackA, trackB, trackA] oc)^[3] (some trackA)
      = some trackB := by
  refine ⟨by decide, by decide, by decide, by decide, by decide, by decide⟩

/-- Claim C6 as amended: the V1 handlers are pure and total — on a queue
containing the current id at (first) index `i`, `next()` yields index
`(i+1) mod N` and `previous()` index `(i-1+N) mod N`, with the V2 handlers
agreeing on this found case; when the id is not found V1 treats the index
as 0; on the empty queue both V1 handlers return the state unchanged; and
when the queue's ids are pairwise distinct, `N` successive `next()` steps
return to the original track. -/
theorem queue_navigation_modular_stepping :
    (∀ (songs : List Song) (c : Song) (i : Nat) (s : Song),
      findIdxO (fun x => x.id == c.id) songs = some i →
      (songs.get? ((i + 1) % songs.length) = some s →
        handleNextV1 songs (some c) = some s ∧
        handleNextV2 songs (some c) = .advanceTo s) ∧
      (songs.get? ((i + songs.length - 1) % songs.length) = some s →
        handlePrevV1 songs (some c) = some s ∧
        handlePrevV2 songs (some c) = .advanceTo s)) ∧
    (∀ (songs : List Song) (c : Song),
      findIdxO (fun x => x.id == c.id) songs = none → songs ≠ [] →
      handleNextV1 songs (some c) = songs.get? (1 % songs.length) ∧
      handlePrevV1 songs (some c) = songs.get? ((songs.length - 1) % songs.length)) ∧
    (∀ cur : Option Song, handleNextV1 [] cur = cur ∧ handlePrevV1 [] cur = cur) ∧
    (∀ (songs : List Song) (i : Nat) (c : Song), (songs.map Song.id).Nodup →
      songs.get? i = some c →
      (fun oc => handleNextV1 songs oc)^[songs.length] (some c) = some c) := by
  refine ⟨?_, ?_, ?_, ?_⟩
  · intro songs c i s hfi
    constructor
    · intro hs
      exact ⟨(handleNextV1_found songs c i hfi).trans hs,
        handleNextV2_found songs c i s hfi hs⟩
    · intro hs
      exact ⟨(handlePrevV1_found songs c i hfi).trans hs,
        handlePrevV2_found songs c i s hfi hs⟩
  · intro songs c hfi hne
    have hpos : 0 < songs.length := List.length_pos.mpr hne
    constructor
    · rw [handleNextV1, if_neg (Nat.pos_iff_ne_zero.mp hpos), hfi]
      have hmod : 1 % songs.length < songs.length := Nat.mod_lt _ hpos
      simp only [Option.getD_none, Nat.zero_add]
      rw [List.get?_eq_get hmod]
      simp
    · rw [handlePrevV1, if_neg (Nat.pos_iff_ne_zero.mp hpos), hfi]
      have hmod : (songs.length - 1) % songs.length < songs.length := Nat.mod_lt _ hpos
      simp only [Option.getD_none, Nat.zero_add]
      rw [List.get?_eq_get hmod]
      simp
  · intro cur
    cases cur <;> simp [handleNextV1, handlePrevV1]
  · intro songs i c hnd hget
    have hi : i < songs.length := by
      rcases List.get?_eq_some.mp hget with ⟨h, _⟩
      exact h
    rw [handleNextV1_iterate songs hnd songs.length i c hget,
      Nat.add_mod_right, Nat.mod_eq_of_lt hi, hget]

/-- Witness for C6 (amended) on the concrete queue `[trackA, trackB]`:
found-case stepping in both variants and directions, the not-found and
empty cases, and the 2-step cycle closure. -/
theorem queue_navigation_modular_stepping_witness :
    (handleNextV1 [trackA, trackB] (some trackA) = some trackB ∧
     handleNextV2 [trackA, trackB] (some trackA) = .advanceTo trackB) ∧
    (handlePrevV1 [trackA, trackB] (some trackA) = some trackB ∧
     handlePrevV2 [trackA, trackB] (some trackA) = .advanceTo trackB) ∧
    handleNextV1 [] (some trackA) = some trackA ∧
    (fun oc => handleNextV1 [trackA, trackB] oc)^[2] (some trackA) = some trackA := by
  refine ⟨?_, ?_, ?_, ?_⟩
  · exact (queue_navigation_modular_stepping.1 [trackA, trackB] trackA 0 trackB
      (by decide)).1 (by decide)
  · exact (queue_navigation_modular_stepping.1 [trackA, trackB] trackA 0 trackB
      (by decide)).2 (by decide)
  · exact (queue_navigation_modular_stepping.2.2.1 (some trackA)).1
  · exact queue_navigation_modular_stepping.2.2.2 [trackA, trackB] 0 trackA
      (by decide) (by decide)
